import Mathlib

/-!
Checkout saga: cart orchestrator and frontend entry point.

Shallow embedding of `app/cart/main.go` (the saga orchestrator) and of the
checkout path of `app/frontend/main.go`.

Collaborators (order store, payment gateway, notification service) are not
executed: their answers are read from an environment record `Env`, and every
call the orchestrator issues to one of them is appended to a trace of
`Effect`s, so that the sequence of side effects of one run can be inspected.
Tracing spans, log lines and the duration histogram carry no control flow and
are left out; the `cart_saga_total` label that a run increments is kept.
-/

namespace Cart

/-! ## Data model -/

/-- Go `type Item struct`. `Price` is a `float64`; the handler never computes
with it, so it is carried as the rational value it denotes. -/
structure Item where
  ProductID : String
  Quantity : Int
  Price : ℚ
deriving DecidableEq

/-- Go `type CheckoutRequest struct`. -/
structure CheckoutRequest where
  UserID : String
  Amount : ℚ
  Items : List Item
deriving DecidableEq

/-- Go `type SagaState struct`. -/
structure SagaState where
  OrderID : String
  PaymentComplete : Bool
  NotifySent : Bool
deriving DecidableEq

/-- One row of table `orders` as far as the handler reads or writes it
(columns `order_id`, `user_id`, `amount`, `status`). -/
structure OrderRow where
  order_id : String
  user_id : String
  amount : ℚ
  status : String
deriving DecidableEq

/-- A non-nil Go `error` value returned by one of the saga steps. -/
inductive Err where
  | exec
  | newRequest
  | transport
  | paymentStatus (code : Nat)
deriving DecidableEq

/-- A call issued by the orchestrator to a collaborator, recorded when it is
issued, whatever the collaborator answers. -/
inductive Effect where
  | dbInsert (order_id user_id : String) (amount : ℚ) (status : String)
  | dbUpdate (status order_id : String)
  | paymentPost (order_id : String) (amount : ℚ)
  | notifyPost (order_id user_id message : String)
deriving DecidableEq

/-- Answers of the collaborators during one run.
* `insertFault` / `updateFault`: the statement sent through `db.ExecContext`
  fails for a reason outside the table contents (store unreachable, ...);
* `paymentReqErr` / `notifyReqErr`: `http.NewRequestWithContext` fails
  (unparsable service URL), so no call leaves the process;
* `paymentReply` / `notifyReply`: result of `client.Do`, `none` for a
  transport error or timeout, `some s` for a response with status code `s`. -/
structure Env where
  insertFault : Bool
  updateFault : Bool
  paymentReqErr : Bool
  paymentReply : Option Nat
  notifyReqErr : Bool
  notifyReply : Option Nat
deriving DecidableEq

/-- Process and store state threaded through a run: the global `db` handle
(`none` is the nil handle, `some rows` a handle on the table contents) and the
calls issued so far. -/
structure World where
  db : Option (List OrderRow)
  trace : List Effect
deriving DecidableEq

/-- Body written to the `http.ResponseWriter`: `http.Error` writes a plain
text line, `json.NewEncoder(w).Encode` a JSON object (keys in written order). -/
inductive Body where
  | text (msg : String)
  | json (fields : List (String × String))
deriving DecidableEq

/-- Status code and body of the HTTP response. -/
structure Response where
  status : Nat
  body : Body
deriving DecidableEq

/-- What one call of `handleCheckout` leaves behind. -/
structure Outcome where
  response : Response
  world : World
  metric : String
  state : Option SagaState
deriving DecidableEq

/-! ## Order identifier: `fmt.Sprintf("ORD-%d", time.Now().UnixNano())` -/

/-- ASCII digit for `d < 10`. -/
def digitChar (d : Nat) : Char := Char.ofNat (48 + d)

/-- Decimal digits of `n`, most significant first, pushed in front of `acc`. -/
def fmtDigits : Nat → Nat → List Char → List Char
  | 0, _, acc => acc
  | fuel + 1, n, acc =>
    if n < 10 then digitChar n :: acc
    else fmtDigits fuel (n / 10) (digitChar (n % 10) :: acc)

/-- Rendering of a natural number by the verb `%d`. -/
def fmtNat (n : Nat) : List Char := fmtDigits (n + 1) n []

/-- Rendering of a signed integer by the verb `%d`: a minus sign, then the
magnitude. -/
def fmtInt (i : Int) : List Char :=
  if i < 0 then '-' :: fmtNat i.natAbs else fmtNat i.natAbs

/-- The identifier built at the start of the saga from the clock reading
`now = time.Now().UnixNano()`. -/
def genOrderID (now : Int) : String := "ORD-" ++ String.mk (fmtInt now)

/-! ## Order store statements -/

/-- The statement `INSERT INTO orders (order_id, user_id, amount, status)`:
fails on a store fault or when `order_id` is already present (column
`order_id` is `UNIQUE`); otherwise the row is added. -/
def execInsert (fault : Bool) (rows : List OrderRow) (r : OrderRow) :
    Option Err × List OrderRow :=
  if fault then (some Err.exec, rows)
  else if rows.any (fun x => x.order_id == r.order_id) then (some Err.exec, rows)
  else (none, rows ++ [r])

/-- The statement `UPDATE orders SET status = $1 WHERE order_id = $2`. -/
def execUpdate (fault : Bool) (rows : List OrderRow) (status orderID : String) :
    Option Err × List OrderRow :=
  if fault then (some Err.exec, rows)
  else (none, rows.map (fun x => if x.order_id = orderID then { x with status := status } else x))

/-- Status stored for `orderID`, if a row with that identifier exists. -/
def statusOf (rows : List OrderRow) (orderID : String) : Option String :=
  (rows.find? (fun x => x.order_id == orderID)).map (fun x => x.status)

/-! ## Saga steps -/

/-- Go `saveOrder`. -/
def saveOrder (env : Env) (w : World) (orderID : String) (req : CheckoutRequest) :
    Option Err × World :=
  match w.db with
  | none => (none, w)
  | some rows =>
    let r := execInsert env.insertFault rows ⟨orderID, req.UserID, req.Amount, "pending"⟩
    (r.1, ⟨some r.2, w.trace ++ [Effect.dbInsert orderID req.UserID req.Amount "pending"]⟩)

/-- Go `compensateOrder`: the result of `db.ExecContext` is dropped. -/
def compensateOrder (env : Env) (w : World) (orderID : String) : World :=
  match w.db with
  | none => w
  | some rows =>
    let r := execUpdate env.updateFault rows "failed" orderID
    ⟨some r.2, w.trace ++ [Effect.dbUpdate "failed" orderID]⟩

/-- Go `processPayment`. -/
def processPayment (env : Env) (w : World) (orderID : String) (amount : ℚ) :
    Option Err × World :=
  if env.paymentReqErr then (some Err.newRequest, w)
  else
    let w1 : World := ⟨w.db, w.trace ++ [Effect.paymentPost orderID amount]⟩
    match env.paymentReply with
    | none => (some Err.transport, w1)
    | some code =>
      if code ≠ 200 then (some (Err.paymentStatus code), w1)
      else (none, w1)

/-- Go `sendNotification`: any response, whatever its status, is a success. -/
def sendNotification (env : Env) (w : World) (orderID userID : String) :
    Option Err × World :=
  if env.notifyReqErr then (some Err.newRequest, w)
  else
    let w1 : World :=
      ⟨w.db, w.trace ++ [Effect.notifyPost orderID userID "Your order has been confirmed"]⟩
    match env.notifyReply with
    | none => (some Err.transport, w1)
    | some _ => (none, w1)

/-- Go `handleCheckout` of the cart service. `body` is the result of
`json.NewDecoder(r.Body).Decode(&req)` (`none` when decoding fails) and `now`
the clock reading used for the order identifier. A response written without
an explicit status code has status 200. -/
def handleCheckout (env : Env) (now : Int) (body : Option CheckoutRequest) (w : World) :
    Outcome :=
  match body with
  | none => ⟨⟨400, Body.text "Invalid request"⟩, w, "error", none⟩
  | some req =>
    let orderID := genOrderID now
    let state : SagaState := ⟨orderID, false, false⟩
    match saveOrder env w orderID req with
    | (some _, w1) =>
      ⟨⟨500, Body.text "Failed to create order"⟩, w1, "failed", some state⟩
    | (none, w1) =>
      match processPayment env w1 orderID req.Amount with
      | (some _, w2) =>
        let w3 := compensateOrder env w2 orderID
        ⟨⟨402, Body.text "Payment failed"⟩, w3, "compensated", some state⟩
      | (none, w2) =>
        let state1 : SagaState := { state with PaymentComplete := true }
        match sendNotification env w2 orderID req.UserID with
        | (some _, w3) =>
          ⟨⟨200, Body.json [("order_id", orderID), ("status", "completed")]⟩, w3,
            "success", some state1⟩
        | (none, w3) =>
          ⟨⟨200, Body.json [("order_id", orderID), ("status", "completed")]⟩, w3,
            "success", some { state1 with NotifySent := true }⟩

/-! ## Observing one run -/

/-- The calls issued by one run of `handleCheckout`: what the run appended to
the trace it started from. -/
def runEffects (env : Env) (now : Int) (body : Option CheckoutRequest) (w : World) :
    List Effect :=
  (handleCheckout env now body w).world.trace.drop w.trace.length

/-- An order write (`INSERT`). -/
def Effect.isInsert : Effect → Bool
  | Effect.dbInsert _ _ _ _ => true
  | _ => false

/-- An order status update (`UPDATE`). -/
def Effect.isUpdate : Effect → Bool
  | Effect.dbUpdate _ _ => true
  | _ => false

/-- A call to the payment gateway. -/
def Effect.isPayment : Effect → Bool
  | Effect.paymentPost _ _ => true
  | _ => false

/-- A call to the notification service. -/
def Effect.isNotify : Effect → Bool
  | Effect.notifyPost _ _ _ => true
  | _ => false

/-- The status value a store statement writes, if the call is one. -/
def Effect.writtenStatus : Effect → Option String
  | Effect.dbInsert _ _ _ status => some status
  | Effect.dbUpdate status _ => some status
  | _ => none

/-- Status stored for `orderID` behind the handle, if any. -/
def storedStatus (w : World) (orderID : String) : Option String :=
  w.db.bind (fun rows => statusOf rows orderID)

/-- The same collaborators with other notification answers. -/
def Env.withNotify (env : Env) (reqErr : Bool) (reply : Option Nat) : Env :=
  ⟨env.insertFault, env.updateFault, env.paymentReqErr, env.paymentReply, reqErr, reply⟩

/-- The same collaborators with another outcome of the compensating update. -/
def Env.withUpdateFault (env : Env) (fault : Bool) : Env :=
  ⟨env.insertFault, fault, env.paymentReqErr, env.paymentReply, env.notifyReqErr,
    env.notifyReply⟩

/-- The request of the checkout scenario:
`{user_id:"u1", amount:100, items:[{product_id:"p1",quantity:2,price:50}]}`. -/
def scenarioReq : CheckoutRequest := ⟨"u1", 100, [⟨"p1", 2, 50⟩]⟩

/-- A clock reading used in the examples (nanoseconds since the epoch). -/
def scenarioNow : Int := 1700000000000000000

/-- An empty, reachable order store and no call issued yet. -/
def emptyWorld : World := ⟨some [], []⟩

/-- All collaborators answer successfully. -/
def envOk : Env := ⟨false, false, false, some 200, false, some 200⟩

/-- The gateway declines (status 402) and the store is healthy. -/
def envDeclined : Env := ⟨false, false, false, some 402, false, some 200⟩

/-- The gateway declines and the compensating update fails. -/
def envDeclinedUpdateDown : Env := ⟨false, true, false, some 402, false, some 200⟩

/-- The order store is unreachable when the order is created. -/
def envStoreDown : Env := ⟨true, false, false, some 200, false, some 200⟩

/-- The gateway answers 201 Created. -/
def envCreated : Env := ⟨false, false, false, some 201, false, some 200⟩

/-- The store handle is nil and no call has been issued yet. -/
def nilWorld : World := ⟨none, []⟩

/-- A second request, from another user. -/
def otherReq : CheckoutRequest := ⟨"u2", 30, [⟨"p7", 1, 30⟩]⟩

/-- A request that decodes but has a zero amount and a line item with
quantity 0 and a negative unit price. -/
def badReq : CheckoutRequest := ⟨"u1", 0, [⟨"p1", 0, -1⟩]⟩

/-- The order identifier a run generated, if its saga started. -/
def Outcome.orderID (o : Outcome) : Option String := o.state.map (fun st => st.OrderID)

end Cart

namespace Frontend

/-! ## Entry point: `app/frontend/main.go` -/

/-- Go `type CheckoutRequest struct` of the frontend, declared field for field
like the one of the cart service. -/
abbrev CheckoutRequest := Cart.CheckoutRequest

/-- Go `type CheckoutResponse struct`. -/
structure CheckoutResponse where
  OrderID : String
  Status : String
  Message : String
deriving DecidableEq

/-- A non-nil Go `error` returned by `callCartService`. -/
inductive Err where
  | newRequest
  | transport
  | cartStatus (code : Nat)
  | decode
deriving DecidableEq

/-- Answers met by the frontend during one request: `cartReqErr` when
`http.NewRequestWithContext` fails, `cartReply` the result of `client.Do`
(`none` for a transport error or timeout, otherwise status code and body). -/
structure Env where
  cartReqErr : Bool
  cartReply : Option (Nat × Cart.Body)
deriving DecidableEq

/-- Response and `frontend_http_requests_total` status label of one request. -/
structure Outcome where
  response : Cart.Response
  metric : String
deriving DecidableEq

/-- Decoding of the cart response into `struct { OrderID string }`: a JSON
object yields the value of its last `order_id` key (the empty string when the
key is absent), keys being compared as the cart writes them, in lower case;
the plain-text line written by `http.Error` is not a JSON document and makes
`Decode` fail. -/
def decodeOrderID : Cart.Body → Option String
  | Cart.Body.text _ => none
  | Cart.Body.json fields =>
    some ((((fields.filter (fun kv => kv.1 == "order_id")).getLast?).map Prod.snd).getD "")

/-- JSON encoding of a `CheckoutResponse`: `message` carries `omitempty`. -/
def encodeResponse (r : CheckoutResponse) : Cart.Body :=
  Cart.Body.json
    ([("order_id", r.OrderID), ("status", r.Status)] ++
      (if r.Message = "" then [] else [("message", r.Message)]))

/-- Go `callCartService`, returning the pair `(string, error)`. Marshalling the
request cannot fail for the finite amounts a decoded request holds. -/
def callCartService (env : Env) (_req : CheckoutRequest) : String × Option Err :=
  if env.cartReqErr then ("", some Err.newRequest)
  else
    match env.cartReply with
    | none => ("", some Err.transport)
    | some (status, body) =>
      if status ≠ 200 then ("", some (Err.cartStatus status))
      else
        match decodeOrderID body with
        | none => ("", some Err.decode)
        | some orderID => (orderID, none)

/-- Go `handleCheckout` of the frontend. `method` is `r.Method`, `body` the
result of decoding the request body (`none` when decoding fails). -/
def handleCheckout (method : String) (body : Option CheckoutRequest) (env : Env) : Outcome :=
  if method ≠ "POST" then ⟨⟨405, Cart.Body.text "Method not allowed"⟩, "405"⟩
  else
    match body with
    | none => ⟨⟨400, Cart.Body.text "Invalid request"⟩, "400"⟩
    | some req =>
      match callCartService env req with
      | (_, some _) =>
        ⟨⟨500, encodeResponse ⟨"", "failed", "Checkout failed"⟩⟩, "500"⟩
      | (orderID, none) =>
        ⟨⟨200, encodeResponse ⟨orderID, "success", "Order processed successfully"⟩⟩, "200"⟩

/-- The cart service answers the scenario request successfully. -/
def envCartOk : Env :=
  ⟨false, some (200,
    (Cart.handleCheckout Cart.envOk Cart.scenarioNow (some Cart.scenarioReq)
      Cart.emptyWorld).response.body)⟩

end Frontend

namespace Cart

/-! ## Store initialisation: `initDB` -/

/-- A non-nil error returned by `initDB`: `sql.Open` failed, the connection
could not be established after the given number of attempts, or the table
could not be created. -/
inductive InitErr where
  | openFailed
  | connect (attempts : Nat)
  | createTable
deriving DecidableEq

/-- What `initDB` does to the outside, in order: `db.PingContext` in loop
iteration `i`, `time.Sleep(d)` with `d` in nanoseconds, and the
`CREATE TABLE IF NOT EXISTS orders` statement. -/
inductive InitEvent where
  | ping (i : Nat)
  | sleep (d : Int)
  | createTable
deriving DecidableEq

/-- Answers met by `initDB`: `openErr` when `sql.Open` fails, `pingOk i` whether
the ping of loop iteration `i` succeeds, `createErr` when creating the table
fails. -/
structure InitEnv where
  openErr : Bool
  pingOk : Nat → Bool
  createErr : Bool

/-- Go `time.Second`, a `time.Duration` counted in nanoseconds. -/
def second : Int := 1000000000

/-- The constant `maxRetries := 10` of `initDB`. -/
def maxRetries : Nat := 10

/-- The retry loop `for i := 0; i < maxRetries; i++` of `initDB`, run over the
values `i` still to come, with the current `backoff` and the events so far.
The result is `none` when the loop is left by `break` or by its condition,
and the error when the loop body returns. Doubling never leaves the range of
`int64`: `backoff` is at most 30 seconds. -/
def pingLoop (pingOk : Nat → Bool) (maxRetries : Nat) :
    List Nat → Int → List InitEvent → Option InitErr × List InitEvent
  | [], _, tr => (none, tr)
  | i :: rest, backoff, tr =>
    if pingOk i then (none, tr ++ [InitEvent.ping i])
    else if i < maxRetries - 1 then
      pingLoop pingOk maxRetries rest
        (if backoff * 2 > 30 * second then 30 * second else backoff * 2)
        (tr ++ [InitEvent.ping i, InitEvent.sleep backoff])
    else (some (InitErr.connect maxRetries), tr ++ [InitEvent.ping i])

/-- Go `initDB`: the returned error and the events, in order. -/
def initDB (env : InitEnv) : Option InitErr × List InitEvent :=
  if env.openErr then (some InitErr.openFailed, [])
  else
    match pingLoop env.pingOk maxRetries (List.range maxRetries) second [] with
    | (some e, tr) => (some e, tr)
    | (none, tr) =>
      if env.createErr then (some InitErr.createTable, tr ++ [InitEvent.createTable])
      else (none, tr ++ [InitEvent.createTable])

/-- A ping. -/
def InitEvent.isPing : InitEvent → Bool
  | InitEvent.ping _ => true
  | _ => false

/-- The durations slept, in order. -/
def sleepsOf : List InitEvent → List Int
  | [] => []
  | InitEvent.sleep d :: rest => d :: sleepsOf rest
  | _ :: rest => sleepsOf rest

/-- The sleep stated for the `k`-th failed ping, `k` counted from 1:
`min(2^(k-1), 30)` seconds. -/
def statedSleep (k : Nat) : Int := min (2 ^ (k - 1)) 30 * second

/-- The stated course of `m` failed pings starting at loop iteration `i`: each
ping followed by the sleep stated for it. -/
def retrySchedule : Nat → Nat → List InitEvent
  | _, 0 => []
  | i, m + 1 =>
    InitEvent.ping i :: InitEvent.sleep (statedSleep (i + 1)) :: retrySchedule (i + 1) m

/-- The database never answers a ping. -/
def initAllDown : InitEnv := ⟨false, fun _ => false, false⟩

end Cart

namespace Frontend

/-- The cart service answers the scenario request with its payment_failed
response, the gateway having declined. -/
def envCartDeclined : Env :=
  ⟨false, some
    ((Cart.handleCheckout Cart.envDeclined Cart.scenarioNow (some Cart.scenarioReq)
        Cart.emptyWorld).response.status,
      (Cart.handleCheckout Cart.envDeclined Cart.scenarioNow (some Cart.scenarioReq)
        Cart.emptyWorld).response.body)⟩

/-- The cart service answers with its internal_error response, the order store
being unreachable. -/
def envCartStoreDown : Env :=
  ⟨false, some
    ((Cart.handleCheckout Cart.envStoreDown Cart.scenarioNow (some Cart.scenarioReq)
        Cart.emptyWorld).response.status,
      (Cart.handleCheckout Cart.envStoreDown Cart.scenarioNow (some Cart.scenarioReq)
        Cart.emptyWorld).response.body)⟩

end Frontend

/-! ## Decimal rendering is injective -/

namespace Cart

/-- Value of an ASCII digit. -/
def digitVal (c : Char) : Nat := c.toNat - 48

/-- Reading a digit string back, starting from `a`. -/
def readDigits (a : Nat) (l : List Char) : Nat := l.foldl (fun x c => x * 10 + digitVal c) a

theorem digitVal_digitChar (d : Nat) (h : d < 10) : digitVal (digitChar d) = d := by
  interval_cases d <;> rfl

theorem digitChar_ne_minus (d : Nat) (h : d < 10) : digitChar d ≠ '-' := by
  interval_cases d <;> decide

theorem readDigits_fmtDigits (fuel : Nat) :
    ∀ (n : Nat) (acc : List Char), n < fuel →
      readDigits 0 (fmtDigits fuel n acc) = readDigits n acc := by
  induction fuel with
  | zero => intro n acc h; omega
  | succ k ih =>
    intro n acc h
    unfold fmtDigits
    split
    · rename_i hn
      simp [readDigits, digitVal_digitChar n hn]
    · rename_i hn
      rw [ih (n / 10) _ (by omega)]
      have hd : digitVal (digitChar (n % 10)) = n % 10 :=
        digitVal_digitChar _ (Nat.mod_lt _ (by decide))
      simp only [readDigits, List.foldl_cons, hd]
      congr 1
      omega

theorem readDigits_fmtNat (n : Nat) : readDigits 0 (fmtNat n) = n := by
  unfold fmtNat
  rw [readDigits_fmtDigits (n + 1) n [] (by omega)]
  rfl

theorem fmtNat_injective {m n : Nat} (h : fmtNat m = fmtNat n) : m = n := by
  have := congrArg (readDigits 0) h
  rwa [readDigits_fmtNat, readDigits_fmtNat] at this

theorem fmtDigits_head (fuel : Nat) :
    ∀ (n : Nat) (acc : List Char), n < fuel →
      ∃ d rest, d < 10 ∧ fmtDigits fuel n acc = digitChar d :: rest := by
  induction fuel with
  | zero => intro n acc h; omega
  | succ k ih =>
    intro n acc h
    unfold fmtDigits
    split
    · rename_i hn
      exact ⟨n, acc, hn, rfl⟩
    · exact ih (n / 10) _ (by omega)

theorem fmtNat_ne_minus (n : Nat) (l : List Char) : fmtNat n ≠ '-' :: l := by
  obtain ⟨d, rest, hd, h⟩ := fmtDigits_head (n + 1) n [] (by omega)
  unfold fmtNat
  rw [h]
  intro hc
  exact digitChar_ne_minus d hd (List.cons.inj hc).1

theorem fmtInt_injective {a b : Int} (h : fmtInt a = fmtInt b) : a = b := by
  unfold fmtInt at h
  split at h <;> split at h
  · have := fmtNat_injective (List.cons.inj h).2
    omega
  · exact absurd h.symm (fmtNat_ne_minus _ _)
  · exact absurd h (fmtNat_ne_minus _ _)
  · have := fmtNat_injective h
    omega

theorem genOrderID_injective {a b : Int} (h : genOrderID a = genOrderID b) : a = b := by
  unfold genOrderID at h
  have h1 := congrArg String.data h
  simp only [String.data_append] at h1
  exact fmtInt_injective (List.append_cancel_left h1)

end Cart

/-! ## Store lemmas -/

namespace Cart

theorem statusOf_append_new (rows : List OrderRow) (r : OrderRow)
    (h : rows.any (fun x => x.order_id == r.order_id) = false) :
    statusOf (rows ++ [r]) r.order_id = some r.status := by
  induction rows with
  | nil => simp [statusOf]
  | cons x xs ih =>
    simp only [List.any_cons, Bool.or_eq_false_iff] at h
    have hx : (x.order_id == r.order_id) = false := h.1
    have := ih h.2
    simp only [statusOf, List.cons_append, List.find?_cons, hx] at this ⊢
    exact this

theorem statusOf_update_hit (rows : List OrderRow) (st orderID s0 : String)
    (h : statusOf rows orderID = some s0) :
    statusOf (execUpdate false rows st orderID).2 orderID = some st := by
  induction rows with
  | nil => simp [statusOf] at h
  | cons x xs ih =>
    simp only [execUpdate, Bool.false_eq_true, if_false, List.map_cons] at ih ⊢
    by_cases hx : x.order_id = orderID
    · simp [statusOf, hx]
    · have hb : (x.order_id == orderID) = false := by simpa using hx
      simp only [statusOf, List.find?_cons, hb] at h
      simp only [statusOf, hx, if_false, List.find?_cons, hb]
      exact ih h

theorem saveOrder_saved (env : Env) (w : World) (orderID : String) (req : CheckoutRequest)
    (rows : List OrderRow) (hdb : w.db = some rows)
    (hsave : (saveOrder env w orderID req).1 = none) :
    rows.any (fun x => x.order_id == orderID) = false ∧
    saveOrder env w orderID req =
      (none, ⟨some (rows ++ [⟨orderID, req.UserID, req.Amount, "pending"⟩]),
        w.trace ++ [Effect.dbInsert orderID req.UserID req.Amount "pending"]⟩) := by
  simp only [saveOrder, hdb, execInsert] at hsave ⊢
  by_cases hf : env.insertFault = true
  · simp [hf] at hsave
  · by_cases ha : rows.any (fun x => x.order_id == orderID) = true
    · simp [hf, ha] at hsave
    · simp only [Bool.not_eq_true] at hf ha
      simp [hf, ha]

theorem processPayment_db (env : Env) (w : World) (orderID : String) (amount : ℚ) :
    (processPayment env w orderID amount).2.db = w.db := by
  unfold processPayment
  split
  · rfl
  · split
    · rfl
    · split <;> rfl

theorem processPayment_err_indep (env : Env) (w w0 : World) (orderID : String) (amount : ℚ) :
    (processPayment env w orderID amount).1 = (processPayment env w0 orderID amount).1 := by
  unfold processPayment
  split
  · rfl
  · split
    · rfl
    · split <;> rfl

theorem processPayment_trace (env : Env) (w : World) (orderID : String) (amount : ℚ) :
    (processPayment env w orderID amount).2.trace =
      w.trace ++ (if env.paymentReqErr then [] else [Effect.paymentPost orderID amount]) := by
  unfold processPayment
  split
  · simp
  · split
    · simp
    · split <;> simp

/-! ## The branches of `handleCheckout` -/

theorem handleCheckout_save_err (env : Env) (now : Int) (req : CheckoutRequest) (w : World)
    (h : (saveOrder env w (genOrderID now) req).1 ≠ none) :
    handleCheckout env now (some req) w =
      ⟨⟨500, Body.text "Failed to create order"⟩, (saveOrder env w (genOrderID now) req).2,
        "failed", some ⟨genOrderID now, false, false⟩⟩ := by
  unfold handleCheckout
  dsimp only
  generalize saveOrder env w (genOrderID now) req = p at h ⊢
  obtain ⟨e, w1⟩ := p
  cases e with
  | none => exact absurd rfl h
  | some err => rfl

theorem handleCheckout_pay_err (env : Env) (now : Int) (req : CheckoutRequest) (w : World)
    (hs : (saveOrder env w (genOrderID now) req).1 = none)
    (hp : (processPayment env (saveOrder env w (genOrderID now) req).2
      (genOrderID now) req.Amount).1 ≠ none) :
    handleCheckout env now (some req) w =
      ⟨⟨402, Body.text "Payment failed"⟩,
        compensateOrder env
          (processPayment env (saveOrder env w (genOrderID now) req).2
            (genOrderID now) req.Amount).2 (genOrderID now),
        "compensated", some ⟨genOrderID now, false, false⟩⟩ := by
  unfold handleCheckout
  dsimp only
  generalize saveOrder env w (genOrderID now) req = p at hs hp ⊢
  obtain ⟨e, w1⟩ := p
  simp only at hs hp ⊢
  subst hs
  simp only
  generalize processPayment env w1 (genOrderID now) req.Amount = q at hp ⊢
  obtain ⟨e2, w2⟩ := q
  cases e2 with
  | none => exact absurd rfl hp
  | some err => rfl

theorem handleCheckout_paid (env : Env) (now : Int) (req : CheckoutRequest) (w : World)
    (hs : (saveOrder env w (genOrderID now) req).1 = none)
    (hp : (processPayment env (saveOrder env w (genOrderID now) req).2
      (genOrderID now) req.Amount).1 = none) :
    handleCheckout env now (some req) w =
      ⟨⟨200, Body.json [("order_id", genOrderID now), ("status", "completed")]⟩,
        (sendNotification env
          (processPayment env (saveOrder env w (genOrderID now) req).2
            (genOrderID now) req.Amount).2 (genOrderID now) req.UserID).2,
        "success",
        some ⟨genOrderID now, true,
          (sendNotification env
            (processPayment env (saveOrder env w (genOrderID now) req).2
              (genOrderID now) req.Amount).2 (genOrderID now) req.UserID).1.isNone⟩⟩ := by
  unfold handleCheckout
  dsimp only
  generalize saveOrder env w (genOrderID now) req = p at hs hp ⊢
  obtain ⟨e, w1⟩ := p
  simp only at hs hp ⊢
  subst hs
  simp only
  generalize processPayment env w1 (genOrderID now) req.Amount = q at hp ⊢
  obtain ⟨e2, w2⟩ := q
  simp only at hp ⊢
  subst hp
  simp only
  generalize sendNotification env w2 (genOrderID now) req.UserID = n
  obtain ⟨e3, w3⟩ := n
  cases e3 <;> rfl

theorem saveOrder_trace (env : Env) (w : World) (orderID : String) (req : CheckoutRequest) :
    (saveOrder env w orderID req).2.trace =
      w.trace ++ (if w.db.isSome then
        [Effect.dbInsert orderID req.UserID req.Amount "pending"] else []) := by
  unfold saveOrder
  cases w.db <;> simp

theorem compensateOrder_trace (env : Env) (w : World) (orderID : String) :
    (compensateOrder env w orderID).trace =
      w.trace ++ (if w.db.isSome then [Effect.dbUpdate "failed" orderID] else []) := by
  unfold compensateOrder
  cases w.db <;> simp

theorem sendNotification_trace (env : Env) (w : World) (orderID userID : String) :
    (sendNotification env w orderID userID).2.trace =
      w.trace ++ (if env.notifyReqErr then []
        else [Effect.notifyPost orderID userID "Your order has been confirmed"]) := by
  unfold sendNotification
  split
  · simp
  · split <;> simp

theorem sendNotification_db (env : Env) (w : World) (orderID userID : String) :
    (sendNotification env w orderID userID).2.db = w.db := by
  unfold sendNotification
  split
  · rfl
  · split <;> rfl

theorem compensateOrder_fault_db (env : Env) (h : env.updateFault = true) (w : World)
    (orderID : String) : (compensateOrder env w orderID).db = w.db := by
  unfold compensateOrder
  cases hq : w.db <;> simp [execUpdate, h, hq]

/-! ## The calls issued by a run -/

theorem runEffects_none (env : Env) (now : Int) (w : World) :
    runEffects env now none w = [] := by
  simp [runEffects, handleCheckout]

theorem runEffects_some (env : Env) (now : Int) (req : CheckoutRequest) (w : World) :
    runEffects env now (some req) w =
      (if w.db.isSome then [Effect.dbInsert (genOrderID now) req.UserID req.Amount "pending"]
        else []) ++
      (if (saveOrder env w (genOrderID now) req).1.isSome then []
        else
          (if env.paymentReqErr then []
            else [Effect.paymentPost (genOrderID now) req.Amount]) ++
          (if (processPayment env (saveOrder env w (genOrderID now) req).2
              (genOrderID now) req.Amount).1.isSome then
            (if w.db.isSome then [Effect.dbUpdate "failed" (genOrderID now)] else [])
          else
            (if env.notifyReqErr then []
              else [Effect.notifyPost (genOrderID now) req.UserID
                "Your order has been confirmed"]))) := by
  have hdbS : (saveOrder env w (genOrderID now) req).2.db.isSome = w.db.isSome := by
    unfold saveOrder
    cases h : w.db <;> simp [h]
  unfold runEffects
  cases hs : (saveOrder env w (genOrderID now) req).1 with
  | some err =>
    have hs1 : (saveOrder env w (genOrderID now) req).1 ≠ none := by simp [hs]
    rw [handleCheckout_save_err env now req w hs1]
    simp [saveOrder_trace]
  | none =>
    cases hp : (processPayment env (saveOrder env w (genOrderID now) req).2
        (genOrderID now) req.Amount).1 with
    | some err =>
      have hp1 : (processPayment env (saveOrder env w (genOrderID now) req).2
          (genOrderID now) req.Amount).1 ≠ none := by simp [hp]
      rw [handleCheckout_pay_err env now req w hs hp1]
      simp [compensateOrder_trace, processPayment_trace, saveOrder_trace, processPayment_db,
        hdbS]
    | none =>
      rw [handleCheckout_paid env now req w hs hp]
      simp [sendNotification_trace, processPayment_trace, saveOrder_trace]

theorem handleCheckout_orderID (env : Env) (now : Int) (req : CheckoutRequest) (w : World) :
    (handleCheckout env now (some req) w).orderID = some (genOrderID now) := by
  cases hs : (saveOrder env w (genOrderID now) req).1 with
  | some err =>
    rw [handleCheckout_save_err env now req w (by simp [hs])]
    rfl
  | none =>
    cases hp : (processPayment env (saveOrder env w (genOrderID now) req).2
        (genOrderID now) req.Amount).1 with
    | some err =>
      rw [handleCheckout_pay_err env now req w hs (by simp [hp])]
      rfl
    | none =>
      rw [handleCheckout_paid env now req w hs hp]
      rfl

end Cart

/-! ## Claims on the cart orchestrator -/

namespace Cart

/-- C1 (as amended): for a checkout whose order was saved, when `processPayment`
returns an error the caller receives 402 "Payment failed", the run issues no
notification call, and the stored status of the order ends as `failed`
provided the compensating update itself does not fail. -/
theorem payment_failure_compensates (env : Env) (now : Int) (req : CheckoutRequest)
    (w : World) (rows : List OrderRow) (hdb : w.db = some rows)
    (hsave : (saveOrder env w (genOrderID now) req).1 = none)
    (hpay : (processPayment env (saveOrder env w (genOrderID now) req).2
      (genOrderID now) req.Amount).1 ≠ none) :
    (handleCheckout env now (some req) w).response = ⟨402, Body.text "Payment failed"⟩ ∧
    (∀ e ∈ runEffects env now (some req) w, e.isNotify = false) ∧
    (env.updateFault = false →
      storedStatus (handleCheckout env now (some req) w).world (genOrderID now)
        = some "failed") := by
  have hc := handleCheckout_pay_err env now req w hsave hpay
  obtain ⟨hany, hs⟩ := saveOrder_saved env w (genOrderID now) req rows hdb hsave
  have hst := statusOf_append_new rows ⟨genOrderID now, req.UserID, req.Amount, "pending"⟩ hany
  unfold runEffects
  rw [hc]
  refine ⟨rfl, ?_, ?_⟩
  · intro e he
    simp only [compensateOrder_trace, processPayment_trace, saveOrder_trace,
      processPayment_db, hs, hdb, List.append_assoc, List.drop_left] at he
    by_cases hq : env.paymentReqErr = true
    · simp [hq] at he
      rcases he with rfl | rfl <;> rfl
    · simp [hq] at he
      rcases he with rfl | rfl | rfl <;> rfl
  · intro hu
    have hdb2 := processPayment_db env (saveOrder env w (genOrderID now) req).2
      (genOrderID now) req.Amount
    rw [hs] at hdb2
    simp only [storedStatus, compensateOrder, hs, hdb2, hu, Option.bind]
    exact statusOf_update_hit _ _ _ _ hst

/-- C1 as stated fails: the order is saved and the gateway declines, but the
compensating update fails, and the stored status stays `pending`. -/
theorem payment_failure_status_stays_pending :
    emptyWorld.db = some [] ∧
    (saveOrder envDeclinedUpdateDown emptyWorld (genOrderID scenarioNow) scenarioReq).1 = none ∧
    (processPayment envDeclinedUpdateDown
      (saveOrder envDeclinedUpdateDown emptyWorld (genOrderID scenarioNow) scenarioReq).2
      (genOrderID scenarioNow) scenarioReq.Amount).1 ≠ none ∧
    storedStatus
      (handleCheckout envDeclinedUpdateDown scenarioNow (some scenarioReq) emptyWorld).world
      (genOrderID scenarioNow) = some "pending" ∧
    storedStatus
      (handleCheckout envDeclinedUpdateDown scenarioNow (some scenarioReq) emptyWorld).world
      (genOrderID scenarioNow) ≠ some "failed" := by
  decide

/-- Witness of `payment_failure_compensates`: the scenario request with a
declining gateway on an empty store. -/
theorem payment_failure_compensates_witness :
    (emptyWorld.db = some [] ∧
      (saveOrder envDeclined emptyWorld (genOrderID scenarioNow) scenarioReq).1 = none ∧
      (processPayment envDeclined
        (saveOrder envDeclined emptyWorld (genOrderID scenarioNow) scenarioReq).2
        (genOrderID scenarioNow) scenarioReq.Amount).1 ≠ none) ∧
    ((handleCheckout envDeclined scenarioNow (some scenarioReq) emptyWorld).response
        = ⟨402, Body.text "Payment failed"⟩ ∧
      (∀ e ∈ runEffects envDeclined scenarioNow (some scenarioReq) emptyWorld,
        e.isNotify = false) ∧
      (envDeclined.updateFault = false →
        storedStatus (handleCheckout envDeclined scenarioNow (some scenarioReq) emptyWorld).world
          (genOrderID scenarioNow) = some "failed")) :=
  ⟨by decide,
    payment_failure_compensates envDeclined scenarioNow scenarioReq emptyWorld [] rfl
      (by decide) (by decide)⟩

/-- C2: when `saveOrder` fails, the caller receives 500 "Failed to create
order", the only call the run has issued is the order write itself (no payment
call, no notification call, no compensating update), and the store is left as
it was. -/
theorem store_failure_aborts (env : Env) (now : Int) (req : CheckoutRequest) (w : World)
    (hsave : (saveOrder env w (genOrderID now) req).1 ≠ none) :
    (handleCheckout env now (some req) w).response
      = ⟨500, Body.text "Failed to create order"⟩ ∧
    runEffects env now (some req) w
      = [Effect.dbInsert (genOrderID now) req.UserID req.Amount "pending"] ∧
    (∀ e ∈ runEffects env now (some req) w,
      e.isPayment = false ∧ e.isNotify = false ∧ e.isUpdate = false) ∧
    (handleCheckout env now (some req) w).world.db = w.db := by
  have hc := handleCheckout_save_err env now req w hsave
  have htr : runEffects env now (some req) w
      = [Effect.dbInsert (genOrderID now) req.UserID req.Amount "pending"] := by
    unfold runEffects
    rw [hc]
    simp only [saveOrder_trace, List.drop_left]
    cases hdb : w.db with
    | none => simp [saveOrder, hdb] at hsave
    | some rows => simp
  refine ⟨by rw [hc], htr, ?_, ?_⟩
  · intro e he
    rw [htr] at he
    simp only [List.mem_singleton] at he
    subst he
    exact ⟨rfl, rfl, rfl⟩
  · rw [hc]
    cases hdb : w.db with
    | none => simp [saveOrder, hdb] at hsave
    | some rows =>
      simp only [saveOrder, hdb, execInsert]
      by_cases hf : env.insertFault = true
      · simp [hf]
      · by_cases ha : rows.any (fun x => x.order_id == genOrderID now) = true
        · simp [hf, ha]
        · simp [saveOrder, hdb, execInsert, hf, ha] at hsave

/-- Witness of `store_failure_aborts`: the scenario request against an
unreachable store. -/
theorem store_failure_aborts_witness :
    (saveOrder envStoreDown emptyWorld (genOrderID scenarioNow) scenarioReq).1 ≠ none ∧
    ((handleCheckout envStoreDown scenarioNow (some scenarioReq) emptyWorld).response
        = ⟨500, Body.text "Failed to create order"⟩ ∧
      runEffects envStoreDown scenarioNow (some scenarioReq) emptyWorld
        = [Effect.dbInsert (genOrderID scenarioNow) scenarioReq.UserID scenarioReq.Amount
            "pending"] ∧
      (∀ e ∈ runEffects envStoreDown scenarioNow (some scenarioReq) emptyWorld,
        e.isPayment = false ∧ e.isNotify = false ∧ e.isUpdate = false) ∧
      (handleCheckout envStoreDown scenarioNow (some scenarioReq) emptyWorld).world.db
        = emptyWorld.db) :=
  ⟨by decide, store_failure_aborts envStoreDown scenarioNow scenarioReq emptyWorld (by decide)⟩

/-- C3: when `saveOrder` and `processPayment` succeed, the response is 200 with
the generated order id, and it is the same response for every answer of the
notification service (request not built, transport error, any status). -/
theorem notification_failure_not_surfaced (env : Env) (now : Int) (req : CheckoutRequest)
    (w : World) (hsave : (saveOrder env w (genOrderID now) req).1 = none)
    (hpay : (processPayment env (saveOrder env w (genOrderID now) req).2
      (genOrderID now) req.Amount).1 = none)
    (reqErr : Bool) (reply : Option Nat) :
    (handleCheckout (env.withNotify reqErr reply) now (some req) w).response
      = ⟨200, Body.json [("order_id", genOrderID now), ("status", "completed")]⟩ ∧
    (handleCheckout (env.withNotify reqErr reply) now (some req) w).response
      = (handleCheckout env now (some req) w).response := by
  have h1 := handleCheckout_paid env now req w hsave hpay
  have h2 := handleCheckout_paid (env.withNotify reqErr reply) now req w hsave hpay
  rw [h1, h2]
  exact ⟨rfl, rfl⟩

/-- Witness of `notification_failure_not_surfaced`: the scenario request with
the notification service unreachable. -/
theorem notification_failure_not_surfaced_witness :
    ((saveOrder envOk emptyWorld (genOrderID scenarioNow) scenarioReq).1 = none ∧
      (processPayment envOk (saveOrder envOk emptyWorld (genOrderID scenarioNow) scenarioReq).2
        (genOrderID scenarioNow) scenarioReq.Amount).1 = none) ∧
    ((handleCheckout (envOk.withNotify false none) scenarioNow (some scenarioReq)
        emptyWorld).response
        = ⟨200, Body.json [("order_id", genOrderID scenarioNow), ("status", "completed")]⟩ ∧
      (handleCheckout (envOk.withNotify false none) scenarioNow (some scenarioReq)
        emptyWorld).response
        = (handleCheckout envOk scenarioNow (some scenarioReq) emptyWorld).response) :=
  ⟨by decide,
    notification_failure_not_surfaced envOk scenarioNow scenarioReq emptyWorld
      (by decide) (by decide) false none⟩

/-- C4: in every run the only status update issued to the store is the write
of `failed` for the generated order id, issued only after `processPayment`
returned an error; when payment succeeds the store is left exactly as
`saveOrder` left it, for every notification outcome, so a saved order still
reads `pending`; and no call of any run writes the status `completed`. -/
theorem compensation_only_status_mutation (env : Env) (now : Int)
    (body : Option CheckoutRequest) (w : World) :
    (∀ e ∈ runEffects env now body w, e.isUpdate = true →
      e = Effect.dbUpdate "failed" (genOrderID now) ∧
      ∃ req, body = some req ∧ (saveOrder env w (genOrderID now) req).1 = none ∧
        (processPayment env (saveOrder env w (genOrderID now) req).2
          (genOrderID now) req.Amount).1 ≠ none) ∧
    (∀ req, body = some req → (saveOrder env w (genOrderID now) req).1 = none →
      (processPayment env (saveOrder env w (genOrderID now) req).2
        (genOrderID now) req.Amount).1 = none →
      ∀ (reqErr : Bool) (reply : Option Nat),
        (handleCheckout (env.withNotify reqErr reply) now body w).world.db
          = (saveOrder env w (genOrderID now) req).2.db ∧
        (w.db ≠ none →
          storedStatus (handleCheckout (env.withNotify reqErr reply) now body w).world
            (genOrderID now) = some "pending")) ∧
    (∀ e ∈ runEffects env now body w, e.writtenStatus ≠ some "completed") := by
  refine ⟨?_, ?_, ?_⟩
  · intro e he hu
    cases body with
    | none => simp [runEffects_none] at he
    | some req =>
      rw [runEffects_some] at he
      cases hs : (saveOrder env w (genOrderID now) req).1 with
      | some err =>
        simp only [hs, Option.isSome_some, if_true, List.append_nil] at he
        split at he
        · simp only [List.mem_singleton] at he
          subst he
          simp [Effect.isUpdate] at hu
        · simp at he
      | none =>
        cases hp : (processPayment env (saveOrder env w (genOrderID now) req).2
            (genOrderID now) req.Amount).1 with
        | none =>
          simp only [hs, hp, Option.isSome_none, Bool.false_eq_true, if_false,
            List.mem_append] at he
          rcases he with he | he | he
          · split at he
            · simp only [List.mem_singleton] at he
              subst he
              simp [Effect.isUpdate] at hu
            · simp at he
          · split at he
            · simp at he
            · simp only [List.mem_singleton] at he
              subst he
              simp [Effect.isUpdate] at hu
          · split at he
            · simp at he
            · simp only [List.mem_singleton] at he
              subst he
              simp [Effect.isUpdate] at hu
        | some err =>
          refine ⟨?_, req, rfl, hs, by simp [hp]⟩
          simp only [hs, hp, Option.isSome_none, Option.isSome_some, Bool.false_eq_true,
            if_false, if_true, List.mem_append] at he
          rcases he with he | he | he
          · split at he
            · simp only [List.mem_singleton] at he
              subst he
              simp [Effect.isUpdate] at hu
            · simp at he
          · split at he
            · simp at he
            · simp only [List.mem_singleton] at he
              subst he
              simp [Effect.isUpdate] at hu
          · split at he
            · simpa using he
            · simp at he
  · intro req hb hs hp reqErr reply
    subst hb
    have hc := handleCheckout_paid (env.withNotify reqErr reply) now req w hs hp
    have hdb : (handleCheckout (env.withNotify reqErr reply) now (some req) w).world.db
        = (saveOrder env w (genOrderID now) req).2.db := by
      rw [hc]
      simp only [sendNotification_db, processPayment_db]
      rfl
    refine ⟨hdb, ?_⟩
    intro hne
    cases hw : w.db with
    | none => exact absurd hw hne
    | some rows =>
      obtain ⟨hany, hsv⟩ := saveOrder_saved env w (genOrderID now) req rows hw hs
      have hst := statusOf_append_new rows
        ⟨genOrderID now, req.UserID, req.Amount, "pending"⟩ hany
      simp only [storedStatus, hdb, hsv, Option.bind]
      exact hst
  · intro e he
    cases body with
    | none => simp [runEffects_none] at he
    | some req =>
      rw [runEffects_some] at he
      simp only [List.mem_append] at he
      rcases he with he | he
      · split at he
        · simp only [List.mem_singleton] at he
          subst he
          simp [Effect.writtenStatus]
        · simp at he
      · split at he
        · simp at he
        · simp only [List.mem_append] at he
          rcases he with he | he
          · split at he
            · simp at he
            · simp only [List.mem_singleton] at he
              subst he
              simp [Effect.writtenStatus]
          · split at he
            · split at he
              · simp only [List.mem_singleton] at he
                subst he
                simp [Effect.writtenStatus]
              · simp at he
            · split at he
              · simp at he
              · simp only [List.mem_singleton] at he
                subst he
                simp [Effect.writtenStatus]

/-- C5: when payment fails the response is 402 "Payment failed" whether the
compensating update succeeds or fails, and when the update fails the store is
left as `saveOrder` left it: a saved order still reads `pending`. -/
theorem compensation_failure_absorbed (env : Env) (now : Int) (req : CheckoutRequest)
    (w : World) (hsave : (saveOrder env w (genOrderID now) req).1 = none)
    (hpay : (processPayment env (saveOrder env w (genOrderID now) req).2
      (genOrderID now) req.Amount).1 ≠ none) :
    (∀ fault : Bool,
      (handleCheckout (env.withUpdateFault fault) now (some req) w).response
        = ⟨402, Body.text "Payment failed"⟩) ∧
    (handleCheckout (env.withUpdateFault true) now (some req) w).world.db
      = (saveOrder env w (genOrderID now) req).2.db ∧
    (w.db ≠ none →
      storedStatus (handleCheckout (env.withUpdateFault true) now (some req) w).world
        (genOrderID now) = some "pending") := by
  have hdb : (handleCheckout (env.withUpdateFault true) now (some req) w).world.db
      = (saveOrder env w (genOrderID now) req).2.db := by
    rw [handleCheckout_pay_err (env.withUpdateFault true) now req w hsave hpay]
    rw [compensateOrder_fault_db (env.withUpdateFault true) rfl, processPayment_db]
    rfl
  refine ⟨?_, hdb, ?_⟩
  · intro fault
    rw [handleCheckout_pay_err (env.withUpdateFault fault) now req w hsave hpay]
  · intro hne
    cases hw : w.db with
    | none => exact absurd hw hne
    | some rows =>
      obtain ⟨hany, hsv⟩ := saveOrder_saved env w (genOrderID now) req rows hw hsave
      have hst := statusOf_append_new rows
        ⟨genOrderID now, req.UserID, req.Amount, "pending"⟩ hany
      simp only [storedStatus, hdb, hsv, Option.bind]
      exact hst

/-- Witness of `compensation_failure_absorbed`: the scenario request with a
declining gateway on an empty store. -/
theorem compensation_failure_absorbed_witness :
    ((saveOrder envDeclined emptyWorld (genOrderID scenarioNow) scenarioReq).1 = none ∧
      (processPayment envDeclined
        (saveOrder envDeclined emptyWorld (genOrderID scenarioNow) scenarioReq).2
        (genOrderID scenarioNow) scenarioReq.Amount).1 ≠ none) ∧
    ((∀ fault : Bool,
      (handleCheckout (envDeclined.withUpdateFault fault) scenarioNow (some scenarioReq)
        emptyWorld).response = ⟨402, Body.text "Payment failed"⟩) ∧
    (handleCheckout (envDeclined.withUpdateFault true) scenarioNow (some scenarioReq)
        emptyWorld).world.db
      = (saveOrder envDeclined emptyWorld (genOrderID scenarioNow) scenarioReq).2.db ∧
    (emptyWorld.db ≠ none →
      storedStatus (handleCheckout (envDeclined.withUpdateFault true) scenarioNow
        (some scenarioReq) emptyWorld).world (genOrderID scenarioNow) = some "pending")) :=
  ⟨by decide,
    compensation_failure_absorbed envDeclined scenarioNow scenarioReq emptyWorld
      (by decide) (by decide)⟩

/-- C6 as stated fails: 201 is a 2xx status, yet `processPayment` returns an
error for it. -/
theorem processPayment_rejects_201 :
    envCreated.paymentReqErr = false ∧ envCreated.paymentReply = some 201 ∧
    (200 ≤ 201 ∧ 201 ≤ 299) ∧
    (processPayment envCreated emptyWorld (genOrderID scenarioNow) scenarioReq.Amount).1
      = some (Err.paymentStatus 201) := by
  decide

/-- C6 (as amended): once the request to the gateway is built, `processPayment`
returns no error exactly when the gateway answers status 200; every other
status (other 2xx included) and every transport error or timeout is returned
as an error, and that error makes `handleCheckout` answer 402 and, with a
store handle, issue the compensating update. -/
theorem processPayment_ok_iff_200 (env : Env) (w : World) (orderID : String) (amount : ℚ)
    (hreq : env.paymentReqErr = false) :
    (∀ s, env.paymentReply = some s →
      ((processPayment env w orderID amount).1 = none ↔ s = 200)) ∧
    (env.paymentReply = none → (processPayment env w orderID amount).1 = some Err.transport) ∧
    (∀ (now : Int) (req : CheckoutRequest),
      (saveOrder env w (genOrderID now) req).1 = none → env.paymentReply ≠ some 200 →
      (handleCheckout env now (some req) w).response = ⟨402, Body.text "Payment failed"⟩ ∧
      (w.db ≠ none →
        Effect.dbUpdate "failed" (genOrderID now) ∈ runEffects env now (some req) w)) := by
  have hiff : ∀ (w0 : World) (oid : String) (a : ℚ) (s : Nat), env.paymentReply = some s →
      ((processPayment env w0 oid a).1 = none ↔ s = 200) := by
    intro w0 oid a s hs
    unfold processPayment
    simp only [hreq, Bool.false_eq_true, if_false, hs]
    by_cases h200 : s = 200
    · simp [h200]
    · simp [h200]
  refine ⟨hiff w orderID amount, ?_, ?_⟩
  · intro hn
    unfold processPayment
    simp [hreq, hn]
  · intro now req hsave hne
    have hperr : (processPayment env (saveOrder env w (genOrderID now) req).2
        (genOrderID now) req.Amount).1 ≠ none := by
      cases hr : env.paymentReply with
      | none =>
        unfold processPayment
        simp [hreq, hr]
      | some s =>
        intro hnone
        have := (hiff _ _ _ s hr).1 hnone
        subst this
        exact hne hr
    refine ⟨by rw [handleCheckout_pay_err env now req w hsave hperr], ?_⟩
    intro hdb
    rw [runEffects_some]
    have hsome : w.db.isSome = true := by
      cases hw : w.db with
      | none => exact absurd hw hdb
      | some rows => rfl
    have hp2 : (processPayment env (saveOrder env w (genOrderID now) req).2
        (genOrderID now) req.Amount).1.isSome = true := by
      cases hq : (processPayment env (saveOrder env w (genOrderID now) req).2
        (genOrderID now) req.Amount).1 with
      | none => exact absurd hq hperr
      | some e => rfl
    simp [hsome, hsave, hp2]

/-- Witness of `processPayment_ok_iff_200`: the healthy collaborators. -/
theorem processPayment_ok_iff_200_witness :
    envOk.paymentReqErr = false ∧
    ((∀ s, envOk.paymentReply = some s →
      ((processPayment envOk emptyWorld (genOrderID scenarioNow) 100).1 = none ↔ s = 200)) ∧
    (envOk.paymentReply = none →
      (processPayment envOk emptyWorld (genOrderID scenarioNow) 100).1 = some Err.transport) ∧
    (∀ (now : Int) (req : CheckoutRequest),
      (saveOrder envOk emptyWorld (genOrderID now) req).1 = none →
      envOk.paymentReply ≠ some 200 →
      (handleCheckout envOk now (some req) emptyWorld).response
        = ⟨402, Body.text "Payment failed"⟩ ∧
      (emptyWorld.db ≠ none →
        Effect.dbUpdate "failed" (genOrderID now)
          ∈ runEffects envOk now (some req) emptyWorld))) :=
  ⟨rfl, processPayment_ok_iff_200 envOk emptyWorld (genOrderID scenarioNow) 100 rfl⟩

/-- C7 as stated fails: two invocations that read the same clock value, for
two different requests, generate the same order identifier. -/
theorem same_instant_same_order_id :
    scenarioReq ≠ otherReq ∧
    (handleCheckout envOk scenarioNow (some scenarioReq) emptyWorld).orderID
      = some "ORD-1700000000000000000" ∧
    (handleCheckout envOk scenarioNow (some otherReq)
      (handleCheckout envOk scenarioNow (some scenarioReq) emptyWorld).world).orderID
      = some "ORD-1700000000000000000" ∧
    ¬ ((handleCheckout envOk scenarioNow (some scenarioReq) emptyWorld).orderID
      ≠ (handleCheckout envOk scenarioNow (some otherReq)
        (handleCheckout envOk scenarioNow (some scenarioReq) emptyWorld).world).orderID) := by
  decide

/-- C7 (as amended): two invocations of the checkout generate distinct order
identifiers exactly when the clock readings they take differ; with equal
readings the identifiers are equal. -/
theorem order_ids_distinct_iff_clock_differs (env1 env2 : Env) (t1 t2 : Int)
    (req1 req2 : CheckoutRequest) (w1 w2 : World) :
    (handleCheckout env1 t1 (some req1) w1).orderID
      ≠ (handleCheckout env2 t2 (some req2) w2).orderID ↔ t1 ≠ t2 := by
  rw [handleCheckout_orderID, handleCheckout_orderID]
  constructor
  · intro h ht
    exact h (by rw [ht])
  · intro h hid
    exact h (genOrderID_injective (Option.some.inj hid))

/-- C8 as stated fails: when the order write fails the run issues no payment
call at all (and with a nil store handle a run issues no order write). -/
theorem store_down_run_has_no_payment_call :
    (runEffects envStoreDown scenarioNow (some scenarioReq) emptyWorld
      = [Effect.dbInsert "ORD-1700000000000000000" "u1" 100 "pending"] ∧
      (runEffects envStoreDown scenarioNow (some scenarioReq) emptyWorld).countP
        Effect.isPayment = 0) ∧
    (runEffects envOk scenarioNow (some scenarioReq) nilWorld).countP Effect.isInsert = 0 := by
  decide

/-- C8 (as amended): the calls of a saga run are an order write, then a payment
call, then either the compensating update or a notification call, each at
most once and in that order: the order write is present exactly when the store
handle is set, the payment call exactly when `saveOrder` returned no error and
the gateway request could be built, and a status update and a notification
call never occur in the same run. -/
theorem saga_effects_single_pass (env : Env) (now : Int) (req : CheckoutRequest) (w : World) :
    (∃ a b c, runEffects env now (some req) w = a ++ b ++ c ∧
      (a = [] ∨ a = [Effect.dbInsert (genOrderID now) req.UserID req.Amount "pending"]) ∧
      (b = [] ∨ b = [Effect.paymentPost (genOrderID now) req.Amount]) ∧
      (c = [] ∨ c = [Effect.dbUpdate "failed" (genOrderID now)] ∨
        c = [Effect.notifyPost (genOrderID now) req.UserID "Your order has been confirmed"]) ∧
      (a ≠ [] ↔ w.db ≠ none) ∧
      (b ≠ [] ↔ ((saveOrder env w (genOrderID now) req).1 = none ∧
        env.paymentReqErr = false))) ∧
    (runEffects env now (some req) w).countP Effect.isInsert ≤ 1 ∧
    (runEffects env now (some req) w).countP Effect.isUpdate ≤ 1 ∧
    (runEffects env now (some req) w).countP Effect.isPayment ≤ 1 ∧
    (runEffects env now (some req) w).countP Effect.isNotify ≤ 1 ∧
    ((runEffects env now (some req) w).countP Effect.isInsert = 1 ↔ w.db ≠ none) ∧
    ((runEffects env now (some req) w).countP Effect.isPayment = 1 ↔
      ((saveOrder env w (genOrderID now) req).1 = none ∧ env.paymentReqErr = false)) := by
  have e1 : w.db ≠ none ↔ w.db.isSome = true := by
    cases w.db <;> simp
  have e2 : (saveOrder env w (genOrderID now) req).1 = none ↔
      (saveOrder env w (genOrderID now) req).1.isSome = false := by
    cases (saveOrder env w (genOrderID now) req).1 <;> simp
  rw [runEffects_some, e1, e2]
  refine ⟨⟨if w.db.isSome then
        [Effect.dbInsert (genOrderID now) req.UserID req.Amount "pending"] else [],
      if (saveOrder env w (genOrderID now) req).1.isSome then []
        else if env.paymentReqErr then []
        else [Effect.paymentPost (genOrderID now) req.Amount],
      if (saveOrder env w (genOrderID now) req).1.isSome then []
        else if (processPayment env (saveOrder env w (genOrderID now) req).2
            (genOrderID now) req.Amount).1.isSome then
          (if w.db.isSome then [Effect.dbUpdate "failed" (genOrderID now)] else [])
        else (if env.notifyReqErr then []
          else [Effect.notifyPost (genOrderID now) req.UserID
            "Your order has been confirmed"]), ?_⟩, ?_⟩ <;>
  cases w.db.isSome <;>
  cases (saveOrder env w (genOrderID now) req).1.isSome <;>
  cases env.paymentReqErr <;>
  cases (processPayment env (saveOrder env w (genOrderID now) req).2
      (genOrderID now) req.Amount).1.isSome <;>
  cases env.notifyReqErr <;>
  simp [Effect.isInsert, Effect.isUpdate, Effect.isPayment, Effect.isNotify]

/-- C9 as stated fails: a request that decodes with amount 0 and a line item
of quantity 0 and negative unit price is not rejected; the saga runs and the
caller receives 200. -/
theorem bad_amount_request_runs_saga :
    (¬ (0 < badReq.Amount) ∧ ∃ i ∈ badReq.Items, i.Quantity < 1 ∧ i.Price < 0) ∧
    (handleCheckout envOk scenarioNow (some badReq) emptyWorld).response
      = ⟨200, Body.json [("order_id", "ORD-1700000000000000000"), ("status", "completed")]⟩ ∧
    runEffects envOk scenarioNow (some badReq) emptyWorld
      = [Effect.dbInsert "ORD-1700000000000000000" "u1" 0 "pending",
          Effect.paymentPost "ORD-1700000000000000000" 0,
          Effect.notifyPost "ORD-1700000000000000000" "u1" "Your order has been confirmed"] := by
  refine ⟨⟨by norm_num [badReq], ⟨"p1", 0, -1⟩, by simp [badReq], by norm_num⟩, ?_, ?_⟩
  · decide
  · decide

/-- C9 (as amended): a body that fails to decode is rejected with 400 "Invalid
request" before the saga starts, with no call issued and the store untouched;
a body that decodes is never answered 400, whatever its amount and line items,
and the line items play no part in the run. -/
theorem decode_failure_is_the_only_rejection (env : Env) (now : Int) (w : World) :
    (handleCheckout env now none w).response = ⟨400, Body.text "Invalid request"⟩ ∧
    (handleCheckout env now none w).world = w ∧
    runEffects env now none w = [] ∧
    (handleCheckout env now none w).state = none ∧
    (∀ req : CheckoutRequest,
      (handleCheckout env now (some req) w).response.status ≠ 400 ∧
      (handleCheckout env now (some req) w).orderID = some (genOrderID now) ∧
      ∀ items : List Item,
        handleCheckout env now (some ⟨req.UserID, req.Amount, items⟩) w
          = handleCheckout env now (some req) w) := by
  refine ⟨rfl, rfl, runEffects_none env now w, rfl, ?_⟩
  intro req
  refine ⟨?_, handleCheckout_orderID env now req w, fun items => rfl⟩
  cases hs : (saveOrder env w (genOrderID now) req).1 with
  | some err =>
    rw [handleCheckout_save_err env now req w (by simp [hs])]
    simp
  | none =>
    cases hp : (processPayment env (saveOrder env w (genOrderID now) req).2
        (genOrderID now) req.Amount).1 with
    | some err =>
      rw [handleCheckout_pay_err env now req w hs (by simp [hp])]
      simp
    | none =>
      rw [handleCheckout_paid env now req w hs hp]
      simp

end Cart

/-! ## Claims on the frontend entry point -/

namespace Frontend

/-- C10: when the cart service replies 200 with a body whose `order_id` is `x`,
the frontend answers 200 with a JSON body whose `order_id` is `x` and whose
status is "success"; and whenever that reply is the response of the cart
handler, `x` is the identifier the handler generated, every order write of
that run carries it, and with a store handle that order write was issued. -/
theorem checkout_success_returns_cart_order_id (fenv : Env) (req : CheckoutRequest)
    (body : Cart.Body) (x : String) (hreq : fenv.cartReqErr = false)
    (hreply : fenv.cartReply = some (200, body)) (hx : decodeOrderID body = some x) :
    (handleCheckout "POST" (some req) fenv).response
      = ⟨200, Cart.Body.json [("order_id", x), ("status", "success"),
          ("message", "Order processed successfully")]⟩ ∧
    (∀ (cenv : Cart.Env) (now : Int) (cbody : Option Cart.CheckoutRequest) (w : Cart.World),
      (Cart.handleCheckout cenv now cbody w).response = ⟨200, body⟩ →
      x = Cart.genOrderID now ∧
      (Cart.handleCheckout cenv now cbody w).orderID = some x ∧
      (∀ e ∈ Cart.runEffects cenv now cbody w, e.isInsert = true →
        ∃ u a, e = Cart.Effect.dbInsert x u a "pending") ∧
      (w.db ≠ none → ∃ creq, cbody = some creq ∧
        Cart.Effect.dbInsert x creq.UserID creq.Amount "pending"
          ∈ Cart.runEffects cenv now cbody w)) := by
  refine ⟨?_, ?_⟩
  · simp [handleCheckout, callCartService, hreq, hreply, hx, encodeResponse]
  · intro cenv now cbody w hresp
    cases cbody with
    | none =>
      have h400 : (Cart.handleCheckout cenv now none w).response.status = 400 := rfl
      rw [hresp] at h400
      simp at h400
    | some creq =>
      have hbody : body = Cart.Body.json
          [("order_id", Cart.genOrderID now), ("status", "completed")] := by
        cases hs : (Cart.saveOrder cenv w (Cart.genOrderID now) creq).1 with
        | some err =>
          rw [Cart.handleCheckout_save_err cenv now creq w (by simp [hs])] at hresp
          simp at hresp
        | none =>
          cases hp : (Cart.processPayment cenv
              (Cart.saveOrder cenv w (Cart.genOrderID now) creq).2
              (Cart.genOrderID now) creq.Amount).1 with
          | some err =>
            rw [Cart.handleCheckout_pay_err cenv now creq w hs (by simp [hp])] at hresp
            simp at hresp
          | none =>
            rw [Cart.handleCheckout_paid cenv now creq w hs hp] at hresp
            simp only [Cart.Response.mk.injEq, true_and] at hresp
            exact hresp.symm
      have hxid : x = Cart.genOrderID now := by
        rw [hbody] at hx
        have hd : decodeOrderID (Cart.Body.json
            [("order_id", Cart.genOrderID now), ("status", "completed")])
            = some (Cart.genOrderID now) := by
          simp [decodeOrderID, List.filter]
        rw [hd] at hx
        exact (Option.some.inj hx).symm
      subst hxid
      refine ⟨rfl, Cart.handleCheckout_orderID cenv now creq w, ?_, ?_⟩
      · intro e he hins
        rw [Cart.runEffects_some] at he
        simp only [List.mem_append] at he
        rcases he with he | he
        · split at he
          · simp only [List.mem_singleton] at he
            exact ⟨creq.UserID, creq.Amount, he⟩
          · simp at he
        · split at he
          · simp at he
          · simp only [List.mem_append] at he
            rcases he with he | he
            · split at he
              · simp at he
              · simp only [List.mem_singleton] at he
                subst he
                simp [Cart.Effect.isInsert] at hins
            · split at he
              · split at he
                · simp only [List.mem_singleton] at he
                  subst he
                  simp [Cart.Effect.isInsert] at hins
                · simp at he
              · split at he
                · simp at he
                · simp only [List.mem_singleton] at he
                  subst he
                  simp [Cart.Effect.isInsert] at hins
      · intro hdb
        refine ⟨creq, rfl, ?_⟩
        rw [Cart.runEffects_some]
        have hsome : w.db.isSome = true := by
          cases hw : w.db with
          | none => exact absurd hw hdb
          | some rows => rfl
        simp [hsome]

/-- Witness of `checkout_success_returns_cart_order_id`: the scenario request
forwarded to a cart service whose collaborators all succeed. -/
theorem checkout_success_returns_cart_order_id_witness :
    (envCartOk.cartReqErr = false ∧
      envCartOk.cartReply = some (200, Cart.Body.json
        [("order_id", "ORD-1700000000000000000"), ("status", "completed")]) ∧
      decodeOrderID (Cart.Body.json
        [("order_id", "ORD-1700000000000000000"), ("status", "completed")])
        = some "ORD-1700000000000000000") ∧
    ((handleCheckout "POST" (some Cart.scenarioReq) envCartOk).response
      = ⟨200, Cart.Body.json [("order_id", "ORD-1700000000000000000"), ("status", "success"),
          ("message", "Order processed successfully")]⟩ ∧
    (∀ (cenv : Cart.Env) (now : Int) (cbody : Option Cart.CheckoutRequest) (w : Cart.World),
      (Cart.handleCheckout cenv now cbody w).response
        = ⟨200, Cart.Body.json
            [("order_id", "ORD-1700000000000000000"), ("status", "completed")]⟩ →
      "ORD-1700000000000000000" = Cart.genOrderID now ∧
      (Cart.handleCheckout cenv now cbody w).orderID = some "ORD-1700000000000000000" ∧
      (∀ e ∈ Cart.runEffects cenv now cbody w, e.isInsert = true →
        ∃ u a, e = Cart.Effect.dbInsert "ORD-1700000000000000000" u a "pending") ∧
      (w.db ≠ none → ∃ creq, cbody = some creq ∧
        Cart.Effect.dbInsert "ORD-1700000000000000000" creq.UserID creq.Amount "pending"
          ∈ Cart.runEffects cenv now cbody w))) :=
  ⟨by decide,
    checkout_success_returns_cart_order_id envCartOk Cart.scenarioReq
      (Cart.Body.json [("order_id", "ORD-1700000000000000000"), ("status", "completed")])
      "ORD-1700000000000000000" (by decide) (by decide) (by decide)⟩

end Frontend

/-! ## The retry loop of `initDB` -/

namespace Cart

theorem statedSleep_le (k : Nat) : statedSleep k ≤ 30 * second := by
  unfold statedSleep second
  have h : min ((2 : Int) ^ (k - 1)) 30 ≤ 30 := min_le_right _ _
  omega

theorem statedSleep_step (i : Nat) :
    (if statedSleep (i + 1) * 2 > 30 * second then 30 * second
      else statedSleep (i + 1) * 2) = statedSleep (i + 2) := by
  unfold statedSleep second
  have hsub : i + 2 - 1 = i + 1 := by omega
  simp only [Nat.add_sub_cancel, hsub]
  by_cases hi : i ≤ 4
  · interval_cases i <;> decide
  · have h5 : (2 : Int) ^ 5 ≤ 2 ^ i := pow_le_pow_right₀ (by norm_num) (by omega)
    have h6 : (2 : Int) ^ 5 ≤ 2 ^ (i + 1) := pow_le_pow_right₀ (by norm_num) (by omega)
    have e1 : min ((2 : Int) ^ i) 30 = 30 := min_eq_right (by norm_num at h5; omega)
    have e2 : min ((2 : Int) ^ (i + 1)) 30 = 30 := min_eq_right (by norm_num at h6; omega)
    rw [e1, e2]
    decide

theorem pingLoop_failed_run (pingOk : Nat → Bool) (n : Nat) (m : Nat) :
    ∀ (i len : Nat) (tr : List InitEvent),
      (∀ k, i ≤ k → k < i + m → pingOk k = false) → i + m ≤ n - 1 →
      pingLoop pingOk n (List.range' i (m + len)) (statedSleep (i + 1)) tr
        = pingLoop pingOk n (List.range' (i + m) len) (statedSleep (i + m + 1))
            (tr ++ retrySchedule i m) := by
  induction m with
  | zero =>
    intro i len tr _ _
    simp [retrySchedule]
  | succ m ih =>
    intro i len tr hfail hle
    have hlen : m + 1 + len = (m + len) + 1 := by omega
    have hi : pingOk i = false := hfail i (le_refl i) (by omega)
    have hlt : i < n - 1 := by omega
    rw [hlen, List.range'_succ, pingLoop]
    simp only [hi, Bool.false_eq_true, if_false, hlt, if_true, statedSleep_step]
    rw [ih (i + 1) len _ (fun k h1 h2 => hfail k (by omega) (by omega)) (by omega)]
    have e : i + 1 + m = i + (m + 1) := by omega
    rw [e]
    simp [retrySchedule]

theorem initDB_first_success (env : InitEnv) (hopen : env.openErr = false) (j : Nat)
    (hj : j < 10) (hok : env.pingOk j = true) (hbefore : ∀ k, k < j → env.pingOk k = false) :
    initDB env =
      (if env.createErr then some InitErr.createTable else none,
        retrySchedule 0 j ++ [InitEvent.ping j, InitEvent.createTable]) := by
  have hrange : List.range maxRetries = List.range' 0 (j + ((9 - j) + 1)) := by
    rw [List.range_eq_range']
    congr 1
    unfold maxRetries
    omega
  have hrun := pingLoop_failed_run env.pingOk maxRetries j 0 ((9 - j) + 1) []
    (fun k _ h2 => hbefore k (by omega)) (by unfold maxRetries; omega)
  unfold initDB
  simp only [hopen, Bool.false_eq_true, if_false, hrange]
  have hs : statedSleep (0 + 1) = second := by decide
  rw [hs] at hrun
  rw [hrun, List.range'_succ, pingLoop]
  simp only [Nat.zero_add, hok, if_true, List.nil_append]
  split <;> simp

theorem initDB_all_failed (env : InitEnv) (hopen : env.openErr = false)
    (hall : ∀ k, k < 10 → env.pingOk k = false) :
    initDB env = (some (InitErr.connect 10), retrySchedule 0 9 ++ [InitEvent.ping 9]) := by
  have hrange : List.range maxRetries = List.range' 0 (9 + 1) := by
    rw [List.range_eq_range']
    rfl
  have hrun := pingLoop_failed_run env.pingOk maxRetries 9 0 1 []
    (fun k _ h2 => hall k (by omega)) (by unfold maxRetries; omega)
  unfold initDB
  simp only [hopen, Bool.false_eq_true, if_false, hrange]
  have hs : statedSleep (0 + 1) = second := by decide
  rw [hs] at hrun
  rw [hrun]
  have h9 : env.pingOk 9 = false := hall 9 (by omega)
  simp [pingLoop, h9, maxRetries]

theorem initDB_cases (env : InitEnv) :
    (∃ j, j < 10 ∧ env.pingOk j = true ∧ ∀ k, k < j → env.pingOk k = false) ∨
    (∀ k, k < 10 → env.pingOk k = false) := by
  by_cases h : ∃ j, j < 10 ∧ env.pingOk j = true
  · left
    refine ⟨Nat.find h, (Nat.find_spec h).1, (Nat.find_spec h).2, ?_⟩
    intro k hk
    have hmin := Nat.find_min h hk
    have hlt : k < 10 := lt_trans hk (Nat.find_spec h).1
    cases hp : env.pingOk k with
    | false => rfl
    | true => exact absurd ⟨hlt, hp⟩ hmin
  · right
    intro k hk
    cases hp : env.pingOk k with
    | false => rfl
    | true => exact absurd ⟨k, hk, hp⟩ h

theorem sleepsOf_append (a b : List InitEvent) : sleepsOf (a ++ b) = sleepsOf a ++ sleepsOf b := by
  induction a with
  | nil => rfl
  | cons x xs ih =>
    cases x <;> simp [sleepsOf, ih]

theorem sleepsOf_retrySchedule (m : Nat) :
    ∀ i, sleepsOf (retrySchedule i m) = (List.range' i m).map (fun k => statedSleep (k + 1)) := by
  induction m with
  | zero => intro i; rfl
  | succ m ih =>
    intro i
    simp [retrySchedule, sleepsOf, ih, List.range'_succ]

theorem countP_isPing_retrySchedule (m : Nat) :
    ∀ i, (retrySchedule i m).countP InitEvent.isPing = m := by
  induction m with
  | zero => intro i; rfl
  | succ m ih =>
    intro i
    simp [retrySchedule, InitEvent.isPing, ih]

theorem createTable_not_mem_retrySchedule (m : Nat) :
    ∀ i, InitEvent.createTable ∉ retrySchedule i m := by
  induction m with
  | zero => intro i; simp [retrySchedule]
  | succ m ih =>
    intro i
    simp [retrySchedule, ih]

end Cart

/-! ## Claims on the frontend's failure path, the nil store handle and `initDB` -/

namespace Frontend

/-- C11 as stated fails: the cart reports payment_failed with 402, and the
frontend answers 500, the very response it gives when the cart reports
internal_error. -/
theorem frontend_answers_500_on_declined_payment :
    envCartDeclined.cartReply = some (402, Cart.Body.text "Payment failed") ∧
    (handleCheckout "POST" (some Cart.scenarioReq) envCartDeclined).response.status = 500 ∧
    (handleCheckout "POST" (some Cart.scenarioReq) envCartDeclined).response.status ≠ 402 ∧
    envCartStoreDown.cartReply = some (500, Cart.Body.text "Failed to create order") ∧
    (handleCheckout "POST" (some Cart.scenarioReq) envCartDeclined).response
      = (handleCheckout "POST" (some Cart.scenarioReq) envCartStoreDown).response := by
  decide

/-- C11 (as amended): when the cart orchestrator reports payment_failed (its
response has status 402), the frontend answers with status 500 and the body
`order_id ""`, `status "failed"`, `message "Checkout failed"`; it gives that
same response for every cart reply whose status is not 200, so the frontend's
caller cannot tell payment_failed from internal_error. -/
theorem payment_failure_answered_500 (cenv : Cart.Env) (now : Int)
    (creq : Cart.CheckoutRequest) (w : Cart.World)
    (hsave : (Cart.saveOrder cenv w (Cart.genOrderID now) creq).1 = none)
    (hpay : (Cart.processPayment cenv (Cart.saveOrder cenv w (Cart.genOrderID now) creq).2
      (Cart.genOrderID now) creq.Amount).1 ≠ none)
    (fenv : Env) (req : CheckoutRequest) (hreq : fenv.cartReqErr = false)
    (hreply : fenv.cartReply = some
      ((Cart.handleCheckout cenv now (some creq) w).response.status,
        (Cart.handleCheckout cenv now (some creq) w).response.body)) :
    (Cart.handleCheckout cenv now (some creq) w).response.status = 402 ∧
    (handleCheckout "POST" (some req) fenv).response
      = ⟨500, Cart.Body.json
          [("order_id", ""), ("status", "failed"), ("message", "Checkout failed")]⟩ ∧
    (∀ (fenv2 : Env) (s : Nat) (b : Cart.Body), fenv2.cartReqErr = false →
      fenv2.cartReply = some (s, b) → s ≠ 200 →
      (handleCheckout "POST" (some req) fenv2).response
        = (handleCheckout "POST" (some req) fenv).response) := by
  have hc := Cart.handleCheckout_pay_err cenv now creq w hsave hpay
  rw [hc] at hreply
  simp only at hreply
  have hgen : ∀ (fenv2 : Env) (s : Nat) (b : Cart.Body), fenv2.cartReqErr = false →
      fenv2.cartReply = some (s, b) → s ≠ 200 →
      (handleCheckout "POST" (some req) fenv2).response
        = ⟨500, Cart.Body.json
            [("order_id", ""), ("status", "failed"), ("message", "Checkout failed")]⟩ := by
    intro fenv2 s b h1 h2 h3
    simp [handleCheckout, callCartService, h1, h2, h3, encodeResponse]
  have hmine := hgen fenv 402 (Cart.Body.text "Payment failed") hreq hreply (by decide)
  refine ⟨by rw [hc], hmine, ?_⟩
  intro fenv2 s b h1 h2 h3
  rw [hmine]
  exact hgen fenv2 s b h1 h2 h3

/-- Witness of `payment_failure_answered_500`: the scenario request, declined by
the gateway, forwarded by the frontend. -/
theorem payment_failure_answered_500_witness :
    ((Cart.saveOrder Cart.envDeclined Cart.emptyWorld (Cart.genOrderID Cart.scenarioNow)
        Cart.scenarioReq).1 = none ∧
      (Cart.processPayment Cart.envDeclined
        (Cart.saveOrder Cart.envDeclined Cart.emptyWorld (Cart.genOrderID Cart.scenarioNow)
          Cart.scenarioReq).2
        (Cart.genOrderID Cart.scenarioNow) Cart.scenarioReq.Amount).1 ≠ none ∧
      envCartDeclined.cartReqErr = false) ∧
    ((Cart.handleCheckout Cart.envDeclined Cart.scenarioNow (some Cart.scenarioReq)
        Cart.emptyWorld).response.status = 402 ∧
    (handleCheckout "POST" (some Cart.scenarioReq) envCartDeclined).response
      = ⟨500, Cart.Body.json
          [("order_id", ""), ("status", "failed"), ("message", "Checkout failed")]⟩ ∧
    (∀ (fenv2 : Env) (s : Nat) (b : Cart.Body), fenv2.cartReqErr = false →
      fenv2.cartReply = some (s, b) → s ≠ 200 →
      (handleCheckout "POST" (some Cart.scenarioReq) fenv2).response
        = (handleCheckout "POST" (some Cart.scenarioReq) envCartDeclined).response)) :=
  ⟨by decide,
    payment_failure_answered_500 Cart.envDeclined Cart.scenarioNow Cart.scenarioReq
      Cart.emptyWorld (by decide) (by decide) envCartDeclined Cart.scenarioReq rfl rfl⟩

end Frontend

namespace Cart

/-- C12: with a nil store handle `saveOrder` returns no error and issues
nothing, and `compensateOrder` issues nothing; so when payment succeeds
`handleCheckout` answers 200 with the generated order id although no order
write was issued and nothing is stored under that id, and when payment fails
it answers 402 without any store statement. -/
theorem nil_store_degraded_mode (env : Env) (now : Int) (req : CheckoutRequest) (w : World)
    (hnil : w.db = none) :
    saveOrder env w (genOrderID now) req = (none, w) ∧
    compensateOrder env w (genOrderID now) = w ∧
    ((processPayment env w (genOrderID now) req.Amount).1 = none →
      (handleCheckout env now (some req) w).response
        = ⟨200, Body.json [("order_id", genOrderID now), ("status", "completed")]⟩ ∧
      (handleCheckout env now (some req) w).world.db = none ∧
      storedStatus (handleCheckout env now (some req) w).world (genOrderID now) = none ∧
      (∀ e ∈ runEffects env now (some req) w, e.isInsert = false ∧ e.isUpdate = false)) ∧
    ((processPayment env w (genOrderID now) req.Amount).1 ≠ none →
      (handleCheckout env now (some req) w).response = ⟨402, Body.text "Payment failed"⟩ ∧
      (handleCheckout env now (some req) w).world.db = none ∧
      (∀ e ∈ runEffects env now (some req) w, e.isInsert = false ∧ e.isUpdate = false)) := by
  have hsv : saveOrder env w (genOrderID now) req = (none, w) := by
    simp [saveOrder, hnil]
  have hs1 : (saveOrder env w (genOrderID now) req).1 = none := by rw [hsv]
  have hs2 : (saveOrder env w (genOrderID now) req).2 = w := by rw [hsv]
  have hcomp : ∀ w0 : World, w0.db = none → compensateOrder env w0 (genOrderID now) = w0 := by
    intro w0 h0
    simp [compensateOrder, h0]
  have hno : ∀ e ∈ runEffects env now (some req) w, e.isInsert = false ∧ e.isUpdate = false := by
    intro e he
    rw [runEffects_some] at he
    simp only [hnil, Option.isSome_none, Bool.false_eq_true, if_false, hs1, List.nil_append,
      hs2] at he
    simp only [List.mem_append] at he
    rcases he with he | he
    · split at he
      · simp at he
      · simp only [List.mem_singleton] at he
        subst he
        exact ⟨rfl, rfl⟩
    · split at he
      · simp at he
      · split at he
        · simp at he
        · simp only [List.mem_singleton] at he
          subst he
          exact ⟨rfl, rfl⟩
  refine ⟨hsv, hcomp w hnil, ?_, ?_⟩
  · intro hp
    have hp1 : (processPayment env (saveOrder env w (genOrderID now) req).2
        (genOrderID now) req.Amount).1 = none := by rw [hs2]; exact hp
    have hdb : (handleCheckout env now (some req) w).world.db = none := by
      rw [handleCheckout_paid env now req w hs1 hp1]
      simp only [sendNotification_db, processPayment_db, hs2, hnil]
    refine ⟨by rw [handleCheckout_paid env now req w hs1 hp1], hdb, ?_, hno⟩
    simp [storedStatus, hdb]
  · intro hp
    have hp1 : (processPayment env (saveOrder env w (genOrderID now) req).2
        (genOrderID now) req.Amount).1 ≠ none := by rw [hs2]; exact hp
    refine ⟨by rw [handleCheckout_pay_err env now req w hs1 hp1], ?_, hno⟩
    rw [handleCheckout_pay_err env now req w hs1 hp1]
    have hpd : (processPayment env (saveOrder env w (genOrderID now) req).2
        (genOrderID now) req.Amount).2.db = none := by
      rw [processPayment_db, hs2, hnil]
    simp only
    rw [hcomp _ hpd, hpd]

/-- Witness of `nil_store_degraded_mode`: the scenario request with a nil store
handle and healthy collaborators. -/
theorem nil_store_degraded_mode_witness :
    nilWorld.db = none ∧
    (saveOrder envOk nilWorld (genOrderID scenarioNow) scenarioReq = (none, nilWorld) ∧
    compensateOrder envOk nilWorld (genOrderID scenarioNow) = nilWorld ∧
    ((processPayment envOk nilWorld (genOrderID scenarioNow) scenarioReq.Amount).1 = none →
      (handleCheckout envOk scenarioNow (some scenarioReq) nilWorld).response
        = ⟨200, Body.json [("order_id", genOrderID scenarioNow), ("status", "completed")]⟩ ∧
      (handleCheckout envOk scenarioNow (some scenarioReq) nilWorld).world.db = none ∧
      storedStatus (handleCheckout envOk scenarioNow (some scenarioReq) nilWorld).world
        (genOrderID scenarioNow) = none ∧
      (∀ e ∈ runEffects envOk scenarioNow (some scenarioReq) nilWorld,
        e.isInsert = false ∧ e.isUpdate = false)) ∧
    ((processPayment envOk nilWorld (genOrderID scenarioNow) scenarioReq.Amount).1 ≠ none →
      (handleCheckout envOk scenarioNow (some scenarioReq) nilWorld).response
        = ⟨402, Body.text "Payment failed"⟩ ∧
      (handleCheckout envOk scenarioNow (some scenarioReq) nilWorld).world.db = none ∧
      (∀ e ∈ runEffects envOk scenarioNow (some scenarioReq) nilWorld,
        e.isInsert = false ∧ e.isUpdate = false))) :=
  ⟨rfl, nil_store_degraded_mode envOk scenarioNow scenarioReq nilWorld rfl⟩

/-- C13: once `sql.Open` has succeeded, `initDB` pings at most 10 times and
stops at the first successful ping, going on to create the table; the `k`-th
sleep of a run lasts `min(2^(k-1), 30)` seconds, there are at most 9 sleeps and
none exceeds 30 seconds; when all 10 pings fail the run is nine ping-and-sleep
rounds of 1, 2, 4, 8, 16, 30, 30, 30, 30 seconds followed by a tenth ping and
nothing else; and the connection error is returned exactly when all 10 pings
fail, in which case the table statement is not issued. -/
theorem initDB_retry_is_capped_backoff (env : InitEnv) (hopen : env.openErr = false) :
    (initDB env).2.countP InitEvent.isPing ≤ 10 ∧
    (∀ j, j < 10 → env.pingOk j = true → (∀ k, k < j → env.pingOk k = false) →
      (initDB env).2 = retrySchedule 0 j ++ [InitEvent.ping j, InitEvent.createTable] ∧
      (initDB env).2.countP InitEvent.isPing = j + 1) ∧
    sleepsOf (initDB env).2
      = (List.range (sleepsOf (initDB env).2).length).map (fun k => statedSleep (k + 1)) ∧
    (sleepsOf (initDB env).2).length ≤ 9 ∧
    (∀ d ∈ sleepsOf (initDB env).2, d ≤ 30 * second) ∧
    ((∀ k, k < 10 → env.pingOk k = false) →
      (initDB env).2 = retrySchedule 0 9 ++ [InitEvent.ping 9] ∧
      (initDB env).2.countP InitEvent.isPing = 10 ∧
      sleepsOf (initDB env).2
        = [1 * second, 2 * second, 4 * second, 8 * second, 16 * second, 30 * second,
            30 * second, 30 * second, 30 * second]) ∧
    ((initDB env).1 = some (InitErr.connect 10) ↔ ∀ k, k < 10 → env.pingOk k = false) ∧
    ((initDB env).1 = some (InitErr.connect 10) → InitEvent.createTable ∉ (initDB env).2) := by
  have hsl : ∀ tr : List InitEvent,
      sleepsOf tr = (List.range (sleepsOf tr).length).map (fun k => statedSleep (k + 1)) →
      ∀ d ∈ sleepsOf tr, d ≤ 30 * second := by
    intro tr h d hd
    rw [h] at hd
    simp only [List.mem_map] at hd
    obtain ⟨k, _, rfl⟩ := hd
    exact statedSleep_le (k + 1)
  rcases initDB_cases env with ⟨j, hj, hok, hb⟩ | hall
  · have hrun := initDB_first_success env hopen j hj hok hb
    have hsleeps : sleepsOf (initDB env).2 = (List.range j).map (fun k => statedSleep (k + 1)) := by
      rw [hrun]
      simp [sleepsOf_append, sleepsOf_retrySchedule, sleepsOf, List.range_eq_range']
    have hcount : (initDB env).2.countP InitEvent.isPing = j + 1 := by
      rw [hrun]
      simp [List.countP_append, countP_isPing_retrySchedule, InitEvent.isPing]
    have hform : sleepsOf (initDB env).2
        = (List.range (sleepsOf (initDB env).2).length).map (fun k => statedSleep (k + 1)) := by
      rw [hsleeps]
      simp
    have hnotall : ¬ ∀ k, k < 10 → env.pingOk k = false := by
      intro hall
      rw [hall j hj] at hok
      exact Bool.noConfusion hok
    have hres : (initDB env).1 ≠ some (InitErr.connect 10) := by
      rw [hrun]
      simp only
      split <;> simp
    refine ⟨by omega, ?_, hform, ?_, hsl _ hform, ?_, ?_, ?_⟩
    · intro j2 hj2 hok2 hb2
      have hjj : j2 = j := by
        rcases Nat.lt_trichotomy j2 j with h | h | h
        · rw [hb j2 h] at hok2
          exact Bool.noConfusion hok2
        · exact h
        · rw [hb2 j h] at hok
          exact Bool.noConfusion hok
      subst hjj
      exact ⟨by rw [hrun], hcount⟩
    · rw [hsleeps]
      simp only [List.length_map, List.length_range]
      omega
    · intro hall
      exact absurd hall hnotall
    · exact ⟨fun h => absurd h hres, fun h => absurd h hnotall⟩
    · intro h
      exact absurd h hres
  · have hrun := initDB_all_failed env hopen hall
    have hsleeps : sleepsOf (initDB env).2 = (List.range 9).map (fun k => statedSleep (k + 1)) := by
      rw [hrun]
      decide
    have hcount : (initDB env).2.countP InitEvent.isPing = 10 := by
      rw [hrun]
      simp [List.countP_append, countP_isPing_retrySchedule, InitEvent.isPing]
    have hform : sleepsOf (initDB env).2
        = (List.range (sleepsOf (initDB env).2).length).map (fun k => statedSleep (k + 1)) := by
      rw [hsleeps]
      simp
    refine ⟨by omega, ?_, hform, ?_, hsl _ hform, ?_, ?_, ?_⟩
    · intro j hj hok _
      rw [hall j hj] at hok
      exact Bool.noConfusion hok
    · rw [hsleeps]
      simp
    · intro _
      refine ⟨by rw [hrun], hcount, ?_⟩
      rw [hsleeps]
      decide
    · exact ⟨fun _ => hall, fun _ => by rw [hrun]⟩
    · intro _
      rw [hrun]
      simp [createTable_not_mem_retrySchedule]

/-- Witness of `initDB_retry_is_capped_backoff`: a database that never answers. -/
theorem initDB_retry_is_capped_backoff_witness :
    initAllDown.openErr = false ∧
    (initDB initAllDown).1 = some (InitErr.connect 10) ∧
    sleepsOf (initDB initAllDown).2
      = [1000000000, 2000000000, 4000000000, 8000000000, 16000000000, 30000000000,
          30000000000, 30000000000, 30000000000] ∧
    ((initDB initAllDown).2.countP InitEvent.isPing ≤ 10 ∧
    (∀ j, j < 10 → initAllDown.pingOk j = true →
      (∀ k, k < j → initAllDown.pingOk k = false) →
      (initDB initAllDown).2
        = retrySchedule 0 j ++ [InitEvent.ping j, InitEvent.createTable] ∧
      (initDB initAllDown).2.countP InitEvent.isPing = j + 1) ∧
    sleepsOf (initDB initAllDown).2
      = (List.range (sleepsOf (initDB initAllDown).2).length).map
          (fun k => statedSleep (k + 1)) ∧
    (sleepsOf (initDB initAllDown).2).length ≤ 9 ∧
    (∀ d ∈ sleepsOf (initDB initAllDown).2, d ≤ 30 * second) ∧
    ((∀ k, k < 10 → initAllDown.pingOk k = false) →
      (initDB initAllDown).2 = retrySchedule 0 9 ++ [InitEvent.ping 9] ∧
      (initDB initAllDown).2.countP InitEvent.isPing = 10 ∧
      sleepsOf (initDB initAllDown).2
        = [1 * second, 2 * second, 4 * second, 8 * second, 16 * second, 30 * second,
            30 * second, 30 * second, 30 * second]) ∧
    ((initDB initAllDown).1 = some (InitErr.connect 10) ↔
      ∀ k, k < 10 → initAllDown.pingOk k = false) ∧
    ((initDB initAllDown).1 = some (InitErr.connect 10) →
      InitEvent.createTable ∉ (initDB initAllDown).2)) :=
  ⟨rfl, by decide, by decide, initDB_retry_is_capped_backoff initAllDown rfl⟩

end Cart
